import Mathlib

/-!
Verification of the staged video-generation pipeline in `app.py`.

The pipeline runs four stages (A: planner, B: scene designer, C: prompt
writer, D: video renderer) over a user topic and delivers the results as a
stream of events.  External effects (the OpenAI chat call, the Replicate
video render, the HTTP download and the file write) are modelled as oracle
functions returning `Except String _` — an `error e` models the Python call
raising an exception whose text is `e`.  Python dicts with a fixed key set
become structures; a value that can be `None` (JSON `null`) becomes an
`Option`.  The regular expressions in `sanitize_filename` use only the
`\w`, `\s` and `-` character classes; they are modelled over ASCII.
-/

namespace App

/-! ## Filename helpers (`sanitize_filename`, `get_video_filename`) -/

/-- ASCII model of the regex class `\w`: letters, digits, underscore. -/
def isWordChar (c : Char) : Bool := c.isAlphanum || c == '_'

/-- ASCII model of the regex class `\s` and of `str.strip`'s whitespace. -/
def isPySpace (c : Char) : Bool :=
  c == ' ' || c == '\t' || c == '\n' || c == '\r' || c == '\x0b' || c == '\x0c'

/-- Characters kept by the first substitution, the class given as not `\w`, not `\s`, not hyphen. -/
def isKept (c : Char) : Bool := isWordChar c || isPySpace c || c == '-'

/-- The class of the second substitution: hyphen or whitespace. -/
def isDashSpace (c : Char) : Bool := isPySpace c || c == '-'

/-- Model of `str.strip()`: drop leading and trailing whitespace. -/
def stripEnds (l : List Char) : List Char :=
  ((l.dropWhile isPySpace).reverse.dropWhile isPySpace).reverse

/-- One maximal run of hyphen or whitespace characters becomes a single
underscore; the boolean records whether we are inside such a run. -/
def collapseAux : Bool → List Char → List Char
  | _, [] => []
  | inRun, c :: rest =>
    if isDashSpace c then
      if inRun then collapseAux true rest
      else '_' :: collapseAux true rest
    else c :: collapseAux false rest

/-- The second substitution: each maximal `[-\s]+` run becomes `_`. -/
def collapseRuns (l : List Char) : List Char := collapseAux false l

/-- Model of `sanitize_filename`: remove characters outside `\w`, `\s`, `-`; strip;
collapse hyphen and whitespace runs to single underscores; truncate to 50. -/
def sanitize_filename (s : String) : String :=
  ⟨(collapseRuns (stripEnds (s.data.filter isKept))).take 50⟩

/-- Model of `get_video_filename`: sanitized slug (placeholder `video` when the slug
is empty, since an empty Python string is falsy) plus a timestamp.  The
ambient `int(time.time())` becomes the explicit argument `ts`. -/
def get_video_filename (user_topic : String) (ts : Nat) : String :=
  let clean := sanitize_filename user_topic
  let clean_topic := if clean = "" then "video" else clean
  "videos/" ++ clean_topic ++ "_" ++ toString ts ++ ".mp4"

/-- Model of `os.path.basename`: the part after the last slash. -/
def basename (p : String) : String :=
  ⟨(p.data.reverse.takeWhile (fun c => c ≠ '/')).reverse⟩

/-! ## Text agents (A, B, C) -/

/-- The one external text-generation call (`call_openai_agent`): from the
instruction string and the user input to the completion text, or an
exception. -/
structure LLMOracle where
  llm : String → String → Except String String

def call_openai_agent (o : LLMOracle) (instructions user_input : String) :
    Except String String :=
  o.llm instructions user_input

def agent_a_text : String :=
  "You are Agent A, planning a 10-second AI video explainer.\n" ++
  "Given the user topic, create a simple visual outline.\n" ++
  "Output format:\n" ++
  "- Target duration: 10 seconds\n" ++
  "- Intro visuals (1 bullet)\n" ++
  "- Core idea visuals (1 bullet)\n" ++
  "- Outro visuals (1 bullet)\n" ++
  "Focus ONLY on what is shown, not what is said.\n" ++
  "Do NOT include any on-screen text, labels, titles, or subtitles."

def agent_b_text : String :=
  "You are Agent B, designing 3 detailed cinematic scenes for a 10-second AI video.\n" ++
  "Use these time ranges exactly: 0-3s, 3-6s, 6-10s.\n" ++
  "For each scene, include:\n" ++
  "- Scene number and short title\n" ++
  "- Time range\n" ++
  "- Rich visual description including motion, colors, style, and camera movement.\n" ++
  "Do NOT include any on-screen text, subtitles, labels, UI, or written words of any kind.\n" ++
  "Focus only on what the camera sees and how it moves."

def agent_c_text : String :=
  "You are Agent C, an expert text-to-video prompt engineer.\n" ++
  "Your job is to transform a multi-scene plan into ONE concise prompt " ++
  "for generating a 10-second AI video.\n" ++
  "Requirements:\n" ++
  "- Clearly state the overall subject based on the user topic.\n" ++
  "- Describe how the visuals evolve over the full 10 seconds.\n" ++
  "- Include motion and camera dynamics.\n" ++
  "- DO NOT include any on-screen text, subtitles, captions, UI, or written words.\n" ++
  "- Output a single descriptive paragraph, no bullet points."

def agent_a_planner (o : LLMOracle) (user_topic : String) : Except String String :=
  call_openai_agent o agent_a_text user_topic

def agent_b_scenes_and_visuals (o : LLMOracle) (outline_text : String) :
    Except String String :=
  call_openai_agent o agent_b_text outline_text

def agent_c_final_prompt (o : LLMOracle) (scene_plan_text user_topic : String) :
    Except String String :=
  call_openai_agent o agent_c_text
    ("User topic: " ++ user_topic ++ "\n\nScene plan:\n" ++ scene_plan_text)

/-! ## Stage D (`generate_video_from_prompt`, `agent_d_video_generator`) -/

/-- The dict returned by `generate_video_from_prompt`.  The completed dict
has no `error` key and the error dict has no `source_url` key; `none`
models an absent key, and for `filename` also the explicit Python `None`
of the error dict. -/
structure MediaOutcome where
  status : String
  filename : Option String
  source_url : Option String
  error : Option String
deriving Repr, DecidableEq

/-- The three external calls of the render stage: `replicate.run` (prompt to
output URL), `requests.get` (URL to body bytes), and the file write. -/
structure RenderOracle where
  run : String → Except String String
  download : String → Except String String
  write : String → String → Except String Unit

/-- Model of `generate_video_from_prompt`: run the render, download the binary, write
the file; any exception in the `try` block is caught and folded into an
error outcome carrying the exception text. -/
def generate_video_from_prompt (ro : RenderOracle) (prompt user_topic : String)
    (ts : Nat) : MediaOutcome :=
  match ro.run prompt with
  | .error e => { status := "error", filename := none, source_url := none, error := some e }
  | .ok output =>
    let filename := get_video_filename user_topic ts
    match ro.download output with
    | .error e => { status := "error", filename := none, source_url := none, error := some e }
    | .ok video_content =>
      match ro.write filename video_content with
      | .error e => { status := "error", filename := none, source_url := none, error := some e }
      | .ok _ =>
        { status := "completed", filename := some filename,
          source_url := some output, error := none }

/-- The first exception text raised inside the `try` block of
`generate_video_from_prompt`, if any. -/
def renderFirstErr (ro : RenderOracle) (prompt user_topic : String) (ts : Nat) :
    Option String :=
  match ro.run prompt with
  | .error e => some e
  | .ok output =>
    match ro.download output with
    | .error e => some e
    | .ok video_content =>
      match ro.write (get_video_filename user_topic ts) video_content with
      | .error e => some e
      | .ok _ => none

/-- The dict returned by `agent_d_video_generator`. -/
structure DResult where
  final_prompt : String
  video_info : MediaOutcome
  video_url : Option String
deriving Repr, DecidableEq

/-- Model of `agent_d_video_generator`: derives `video_url` from the outcome; the
Python truthiness test on `filename` is `None`-or-empty falsy. -/
def agent_d_video_generator (ro : RenderOracle) (final_prompt user_topic : String)
    (ts : Nat) : DResult :=
  let video_info := generate_video_from_prompt ro final_prompt user_topic ts
  let video_url :=
    match video_info.filename with
    | some f =>
      if video_info.status = "completed" ∧ f ≠ "" then
        some ("/videos/" ++ basename f)
      else none
    | none => none
  { final_prompt := final_prompt, video_info := video_info, video_url := video_url }

/-! ## The incremental delivery channel (`event_stream`) -/

/-- One server-sent event, the JSON dict inside a `data:` line.  `agent` and
`content` are always present; the three video fields are present only on
the `D` event (`none` elsewhere).  On the `D` event, `filename` is
`video_info.get("filename", "N/A")`: both dicts produced by
`generate_video_from_prompt` carry the `filename` key, so the value is that
key's value — a string, or the Python `None` of the error dict (modelled
`none`); the `N/A` default is unreachable. -/
structure Event where
  agent : String
  content : String
  video_url : Option String := none
  video_status : Option String := none
  filename : Option String := none
deriving Repr, DecidableEq

/-- The generator body of `run_workflow_stream`: the list of events it
yields, in order.  An exception from a text stage reaches the generator's
`except` clause, which yields a single terminal `ERROR` event; the render
stage cannot raise. -/
def event_stream (o : LLMOracle) (ro : RenderOracle) (ts : Nat) (prompt : String) :
    List Event :=
  match agent_a_planner o prompt with
  | .error e => [{ agent := "ERROR", content := "Error: " ++ e }]
  | .ok a_out =>
    { agent := "A", content := a_out } ::
    match agent_b_scenes_and_visuals o a_out with
    | .error e => [{ agent := "ERROR", content := "Error: " ++ e }]
    | .ok b_out =>
      { agent := "B", content := b_out } ::
      match agent_c_final_prompt o b_out prompt with
      | .error e => [{ agent := "ERROR", content := "Error: " ++ e }]
      | .ok c_out =>
        { agent := "C", content := c_out } ::
        let d_obj := agent_d_video_generator ro c_out prompt ts
        { agent := "D", content := d_obj.final_prompt,
          video_url := d_obj.video_url,
          video_status := some d_obj.video_info.status,
          filename := d_obj.video_info.filename } ::
        [{ agent := "DONE", content := "Complete! Video saved." }]

/-! ## Character and sanitization lemmas -/

lemma dashSpace_not_word {c : Char} (h : isDashSpace c = true) : isWordChar c = false := by
  simp only [isDashSpace, isPySpace, Bool.or_eq_true, beq_iff_eq] at h
  rcases h with (((((h | h) | h) | h) | h) | h) | h <;> subst h <;> decide

lemma word_not_dashSpace {c : Char} (h : isWordChar c = true) : isDashSpace c = false := by
  cases hd : isDashSpace c
  · rfl
  · rw [dashSpace_not_word hd] at h; exact absurd h (by simp)

lemma word_not_space {c : Char} (h : isWordChar c = true) : isPySpace c = false := by
  have hd := word_not_dashSpace h
  simp only [isDashSpace, Bool.or_eq_false_iff] at hd
  exact hd.1

lemma kept_of_word {c : Char} (h : isWordChar c = true) : isKept c = true := by
  simp [isKept, h]

lemma word_of_kept_not_dashSpace {c : Char} (hk : isKept c = true)
    (hd : isDashSpace c = false) : isWordChar c = true := by
  simp only [isKept, Bool.or_eq_true] at hk
  rcases hk with (hw | hs) | hh
  · exact hw
  · simp [isDashSpace, hs] at hd
  · simp [isDashSpace, hh] at hd

lemma mem_collapseAux {c : Char} :
    ∀ (b : Bool) (l : List Char), c ∈ collapseAux b l →
      c = '_' ∨ (c ∈ l ∧ isDashSpace c = false)
  | b, [], h => by simp [collapseAux] at h
  | b, x :: rest, h => by
    by_cases hx : isDashSpace x = true
    · cases b with
      | true =>
        simp [collapseAux, hx] at h
        have hrec := mem_collapseAux true rest h
        rcases hrec with h1 | h2
        · exact Or.inl h1
        · exact Or.inr ⟨List.mem_cons_of_mem _ h2.1, h2.2⟩
      | false =>
        simp [collapseAux, hx] at h
        rcases h with rfl | h
        · exact Or.inl rfl
        · have hrec := mem_collapseAux true rest h
          rcases hrec with h1 | h2
          · exact Or.inl h1
          · exact Or.inr ⟨List.mem_cons_of_mem _ h2.1, h2.2⟩
    · simp [collapseAux, hx] at h
      rcases h with rfl | h
      · exact Or.inr ⟨List.mem_cons_self _ _, Bool.of_not_eq_true hx⟩
      · have hrec := mem_collapseAux false rest h
        rcases hrec with h1 | h2
        · exact Or.inl h1
        · exact Or.inr ⟨List.mem_cons_of_mem _ h2.1, h2.2⟩

lemma mem_stripEnds {c : Char} {l : List Char} (h : c ∈ stripEnds l) : c ∈ l := by
  unfold stripEnds at h
  rw [List.mem_reverse] at h
  have h2 := (List.dropWhile_sublist _).mem h
  rw [List.mem_reverse] at h2
  exact (List.dropWhile_sublist _).mem h2

/-- Every character of a sanitized slug is a word character. -/
lemma sanitize_data_word (s : String) :
    ∀ c ∈ (sanitize_filename s).data, isWordChar c = true := by
  intro c hc
  have hc' : c ∈ collapseRuns (stripEnds (s.data.filter isKept)) :=
    List.mem_of_mem_take hc
  rcases mem_collapseAux false _ hc' with rfl | ⟨hmem, hds⟩
  · decide
  · exact word_of_kept_not_dashSpace (List.of_mem_filter (mem_stripEnds hmem)) hds

lemma sanitize_length_le (s : String) : (sanitize_filename s).length ≤ 50 :=
  List.length_take_le 50 _

lemma dropWhile_of_none {p : Char → Bool} :
    ∀ {l : List Char}, (∀ c ∈ l, p c = false) → l.dropWhile p = l
  | [], _ => rfl
  | x :: xs, h => by
    rw [List.dropWhile_cons, h x (List.mem_cons_self x xs)]
    simp

lemma stripEnds_of_no_space {l : List Char} (h : ∀ c ∈ l, isPySpace c = false) :
    stripEnds l = l := by
  unfold stripEnds
  rw [dropWhile_of_none h, dropWhile_of_none (fun c hc => h c (List.mem_reverse.mp hc)),
    List.reverse_reverse]

lemma collapseAux_of_no_ds (b : Bool) :
    ∀ (l : List Char), (∀ c ∈ l, isDashSpace c = false) → collapseAux b l = l
  | [], _ => rfl
  | x :: xs, h => by
    rw [collapseAux, h x (List.mem_cons_self x xs)]
    simp only [if_false, Bool.false_eq_true]
    rw [collapseAux_of_no_ds false xs (fun c hc => h c (List.mem_cons_of_mem _ hc))]

/-- Sanitization is the identity on strings that are already sanitized:
all word characters, length at most 50. -/
lemma sanitize_fixed :
    ∀ (t : String), (∀ c ∈ t.data, isWordChar c = true) → t.length ≤ 50 →
      sanitize_filename t = t
  | ⟨l⟩, hw, hlen => by
    unfold sanitize_filename
    rw [List.filter_eq_self.mpr (fun c hc => kept_of_word (hw c hc))]
    rw [stripEnds_of_no_space (fun c hc => word_not_space (hw c hc))]
    show String.mk (List.take 50 (collapseAux false l)) = ⟨l⟩
    rw [collapseAux_of_no_ds false l (fun c hc => word_not_dashSpace (hw c hc))]
    rw [List.take_of_length_le hlen]

/-! ## Characterization of the render stage -/

lemma gen_video_eq_err {ro : RenderOracle} {prompt user_topic : String} {ts : Nat}
    {e : String} (h : renderFirstErr ro prompt user_topic ts = some e) :
    generate_video_from_prompt ro prompt user_topic ts =
      { status := "error", filename := none, source_url := none, error := some e } := by
  unfold renderFirstErr at h
  unfold generate_video_from_prompt
  cases hr : ro.run prompt with
  | error e1 => simp only [hr] at h ⊢; simp at h; subst h; rfl
  | ok output =>
    simp only [hr] at h ⊢
    cases hd : ro.download output with
    | error e1 => simp only [hd] at h ⊢; simp at h; subst h; rfl
    | ok video_content =>
      simp only [hd] at h ⊢
      cases hw : ro.write (get_video_filename user_topic ts) video_content with
      | error e1 => simp only [hw] at h ⊢; simp at h; subst h; rfl
      | ok u => simp only [hw] at h; simp at h

lemma gen_video_eq_ok {ro : RenderOracle} {prompt user_topic : String} {ts : Nat}
    (h : renderFirstErr ro prompt user_topic ts = none) :
    ∃ output, generate_video_from_prompt ro prompt user_topic ts =
      { status := "completed", filename := some (get_video_filename user_topic ts),
        source_url := some output, error := none } := by
  unfold renderFirstErr at h
  unfold generate_video_from_prompt
  cases hr : ro.run prompt with
  | error e1 => simp only [hr] at h; simp at h
  | ok output =>
    simp only [hr] at h ⊢
    cases hd : ro.download output with
    | error e1 => simp only [hd] at h; simp at h
    | ok video_content =>
      simp only [hd] at h ⊢
      cases hw : ro.write (get_video_filename user_topic ts) video_content with
      | error e1 => simp only [hw] at h; simp at h
      | ok u => exact ⟨output, by simp only [hw]⟩

lemma get_video_filename_ne_empty (user_topic : String) (ts : Nat) :
    get_video_filename user_topic ts ≠ "" := by
  unfold get_video_filename
  intro h
  have hl := congrArg String.length h
  simp only [String.length_append] at hl
  have h1 : ("videos/" : String).length = 7 := rfl
  have h2 : ("_" : String).length = 1 := rfl
  have h3 : (".mp4" : String).length = 4 := rfl
  have h4 : ("" : String).length = 0 := rfl
  omega

/-! ## Concrete oracles used as test inputs -/

/-- Text oracle in which each chat call returns its user input verbatim. -/
def echoOracle : LLMOracle := { llm := fun _ input => .ok input }

/-- Text oracle whose calls return the fixed completion `K` on inputs of
length at most one and echo longer inputs; it makes Stage A and Stage B
produce identical output for any two one-character topics. -/
def gateOracle : LLMOracle :=
  { llm := fun _ input => if input.length ≤ 1 then .ok "K" else .ok input }

/-- Text oracle whose call succeeds on the input `ptopic` (Stage A) and
raises `boom` on everything else (so Stage B raises). -/
def failAfterA : LLMOracle :=
  { llm := fun _ input => if input = "ptopic" then .ok "A_OUT" else .error "boom" }

/-- Render oracle whose provider call always raises `provider error`. -/
def failRender : RenderOracle :=
  { run := fun _ => .error "provider error",
    download := fun _ => .error "provider error",
    write := fun _ _ => .error "provider error" }

/-- Render oracle in which all three external calls succeed. -/
def okRender : RenderOracle :=
  { run := fun _ => .ok "https://example.test/out.mp4",
    download := fun _ => .ok "bytes",
    write := fun _ _ => .ok () }

/-! ## Claim theorems -/

/-- C1: when any external call of the render stage raises,
`generate_video_from_prompt` does not propagate the exception but returns
the error outcome carrying the exception text, and the incremental stream
still emits the A, B, C events, the D event with `video_status = error`,
and the `DONE` sentinel — never the `ERROR` sentinel. -/
theorem render_failure_degrades_not_aborts
    (o : LLMOracle) (ro : RenderOracle) (ts : Nat)
    (prompt a_out b_out c_out e : String)
    (hA : agent_a_planner o prompt = .ok a_out)
    (hB : agent_b_scenes_and_visuals o a_out = .ok b_out)
    (hC : agent_c_final_prompt o b_out prompt = .ok c_out)
    (hR : renderFirstErr ro c_out prompt ts = some e) :
    generate_video_from_prompt ro c_out prompt ts =
      { status := "error", filename := none, source_url := none, error := some e } ∧
    event_stream o ro ts prompt =
      [{ agent := "A", content := a_out },
       { agent := "B", content := b_out },
       { agent := "C", content := c_out },
       { agent := "D", content := c_out, video_url := none,
         video_status := some "error", filename := none },
       { agent := "DONE", content := "Complete! Video saved." }] := by
  have hgen := gen_video_eq_err hR
  refine ⟨hgen, ?_⟩
  simp only [event_stream, hA, hB, hC]
  simp [agent_d_video_generator, hgen]

theorem render_failure_degrades_not_aborts_witness :
    generate_video_from_prompt failRender "User topic: t\n\nScene plan:\nt" "t" 0 =
      { status := "error", filename := none, source_url := none,
        error := some "provider error" } ∧
    event_stream echoOracle failRender 0 "t" =
      [{ agent := "A", content := "t" },
       { agent := "B", content := "t" },
       { agent := "C", content := "User topic: t\n\nScene plan:\nt" },
       { agent := "D", content := "User topic: t\n\nScene plan:\nt", video_url := none,
         video_status := some "error", filename := none },
       { agent := "DONE", content := "Complete! Video saved." }] :=
  render_failure_degrades_not_aborts echoOracle failRender 0 "t" "t" "t"
    "User topic: t\n\nScene plan:\nt" "provider error" rfl rfl rfl rfl

/-- C2: when no text stage raises, the emitted agent identifiers are exactly
`A, B, C, D, DONE` in order, each once; and in every run, whatever the
oracles do, exactly one terminal sentinel (`DONE` or `ERROR`) is emitted. -/
theorem stream_order_and_single_terminal
    (o : LLMOracle) (ro : RenderOracle) (ts : Nat) (prompt : String) :
    (∀ a_out b_out c_out,
       agent_a_planner o prompt = .ok a_out →
       agent_b_scenes_and_visuals o a_out = .ok b_out →
       agent_c_final_prompt o b_out prompt = .ok c_out →
       (event_stream o ro ts prompt).map Event.agent = ["A", "B", "C", "D", "DONE"]) ∧
    (event_stream o ro ts prompt).countP
      (fun ev => ev.agent == "DONE" || ev.agent == "ERROR") = 1 := by
  constructor
  · intro a_out b_out c_out hA hB hC
    simp only [event_stream, hA, hB, hC]
    simp
  · unfold event_stream
    cases hA : agent_a_planner o prompt with
    | error e => simp [List.countP_cons, List.countP_nil]
    | ok a_out =>
      cases hB : agent_b_scenes_and_visuals o a_out with
      | error e => simp [hB, List.countP_cons, List.countP_nil]
      | ok b_out =>
        cases hC : agent_c_final_prompt o b_out prompt with
        | error e => simp [hB, hC, List.countP_cons, List.countP_nil]
        | ok c_out => simp [hB, hC, List.countP_cons, List.countP_nil]

theorem stream_order_and_single_terminal_witness :
    (event_stream echoOracle failRender 0 "t").map Event.agent =
      ["A", "B", "C", "D", "DONE"] ∧
    (event_stream echoOracle failRender 0 "t").countP
      (fun ev => ev.agent == "DONE" || ev.agent == "ERROR") = 1 :=
  ⟨(stream_order_and_single_terminal echoOracle failRender 0 "t").1 "t" "t"
     "User topic: t\n\nScene plan:\nt" rfl rfl rfl,
   (stream_order_and_single_terminal echoOracle failRender 0 "t").2⟩

/-- C3: when a text stage raises, the stream keeps the events of the stages
completed before the failure, emits no event for any later stage, and ends
with the single terminal `ERROR` event carrying the error message. -/
theorem text_stage_failure_aborts
    (o : LLMOracle) (ro : RenderOracle) (ts : Nat) (prompt : String) :
    (∀ e, agent_a_planner o prompt = .error e →
       event_stream o ro ts prompt =
         [{ agent := "ERROR", content := "Error: " ++ e }]) ∧
    (∀ a_out e, agent_a_planner o prompt = .ok a_out →
       agent_b_scenes_and_visuals o a_out = .error e →
       event_stream o ro ts prompt =
         [{ agent := "A", content := a_out },
          { agent := "ERROR", content := "Error: " ++ e }]) ∧
    (∀ a_out b_out e, agent_a_planner o prompt = .ok a_out →
       agent_b_scenes_and_visuals o a_out = .ok b_out →
       agent_c_final_prompt o b_out prompt = .error e →
       event_stream o ro ts prompt =
         [{ agent := "A", content := a_out },
          { agent := "B", content := b_out },
          { agent := "ERROR", content := "Error: " ++ e }]) := by
  refine ⟨?_, ?_, ?_⟩
  · intro e hA
    simp only [event_stream, hA]
  · intro a_out e hA hB
    simp only [event_stream, hA, hB]
  · intro a_out b_out e hA hB hC
    simp only [event_stream, hA, hB, hC]

theorem text_stage_failure_aborts_witness :
    event_stream failAfterA okRender 0 "ptopic" =
      [{ agent := "A", content := "A_OUT" },
       { agent := "ERROR", content := "Error: boom" }] :=
  (text_stage_failure_aborts failAfterA okRender 0 "ptopic").2.1 "A_OUT" "boom"
    rfl rfl

/-- C4: over every outcome actually produced by `generate_video_from_prompt`,
the derived `video_url` is non-null exactly when the outcome's status is
`completed`, and likewise for the persisted `filename`. -/
theorem media_location_iff_completed
    (ro : RenderOracle) (prompt user_topic : String) (ts : Nat) :
    ((agent_d_video_generator ro prompt user_topic ts).video_url ≠ none ↔
      (generate_video_from_prompt ro prompt user_topic ts).status = "completed") ∧
    ((generate_video_from_prompt ro prompt user_topic ts).filename ≠ none ↔
      (generate_video_from_prompt ro prompt user_topic ts).status = "completed") := by
  cases h : renderFirstErr ro prompt user_topic ts with
  | some e =>
    have hgen := gen_video_eq_err h
    constructor
    · simp [agent_d_video_generator, hgen]
    · simp [hgen]
  | none =>
    obtain ⟨output, hgen⟩ := gen_video_eq_ok h
    constructor
    · simp [agent_d_video_generator, hgen, get_video_filename_ne_empty]
    · simp [hgen]


/-- C5 counterexample: the stage functions do not consume only their
immediate predecessor's output.  Under `gateOracle`, the runs for the
topics `X` and `Y` produce the same Stage-B event (same predecessor output
for Stage C), yet their Stage-C events differ — Stage C also receives the
original user topic. -/
theorem stage_chain_counterexample :
    (event_stream gateOracle failRender 0 "X").get? 1 =
      (event_stream gateOracle failRender 0 "Y").get? 1 ∧
    (event_stream gateOracle failRender 0 "X").get? 2 ≠
      (event_stream gateOracle failRender 0 "Y").get? 2 := by
  exact ⟨rfl, by decide⟩

/-- C5 amended: Stage B receives only Stage A's output, but Stage C
receives the scene plan together with the original user topic, and Stage D
receives the final prompt together with the original user topic (used for
the video filename): with identical A and B events across the topics `X`
and `Y`, the C events differ and the D events carry topic-derived
filenames. -/
theorem stage_chain_amended :
    (event_stream gateOracle okRender 0 "X").get? 0 =
      (event_stream gateOracle okRender 0 "Y").get? 0 ∧
    (event_stream gateOracle okRender 0 "X").get? 1 =
      (event_stream gateOracle okRender 0 "Y").get? 1 ∧
    (event_stream gateOracle okRender 0 "X").get? 2 ≠
      (event_stream gateOracle okRender 0 "Y").get? 2 ∧
    ((event_stream gateOracle okRender 0 "X").get? 3).map (fun ev => ev.filename) =
      some (some "videos/X_0.mp4") ∧
    ((event_stream gateOracle okRender 0 "Y").get? 3).map (fun ev => ev.filename) =
      some (some "videos/Y_0.mp4") := by
  refine ⟨rfl, rfl, by decide, rfl, rfl⟩

/-! ## The batch delivery endpoint (modelled) -/

/-- Modelled from the spec: the per-stage outputs collected by the batch
response body. -/
structure AgentOutputs where
  A : String
  B : String
  C : String
  D : String
deriving Repr, DecidableEq

/-- Modelled from the spec: the aggregate response body of the batch
endpoint. -/
structure BatchBody where
  agent_outputs : AgentOutputs
  final : String
deriving Repr, DecidableEq

/-- Modelled from the spec: the instruction of Stage D's brief mode, a
second text-generation call that merges the narration and scene plan into a
structured final brief. -/
def agent_d_brief_text : String :=
  "You are Agent D. Merge the narration and the scene plan into a structured " ++
  "final brief with title, audience, tone, duration, and a per-scene " ++
  "narration-to-visual mapping."

/-- Modelled from the spec: the batch delivery variant `POST /run_workflow`
is not among the source files; per the spec it runs the four stages in
order, collects all four results into one aggregate response returned only
after Stage D completes, and fails the whole request when any stage fails
(an uncaught exception fails the Flask request). -/
def run_workflow (o : LLMOracle) (prompt : String) : Except String BatchBody :=
  match agent_a_planner o prompt with
  | .error e => .error e
  | .ok a =>
    match agent_b_scenes_and_visuals o a with
    | .error e => .error e
    | .ok b =>
      match agent_c_final_prompt o b prompt with
      | .error e => .error e
      | .ok c =>
        match call_openai_agent o agent_d_brief_text c with
        | .error e => .error e
        | .ok d =>
          .ok { agent_outputs := { A := a, B := b, C := c, D := d }, final := d }

/-- C6: the batch endpoint returns the aggregate body only when all four
stages completed, with the four collected stage outputs and the final
string, and any stage failure fails the whole request. -/
theorem run_workflow_batch_contract (o : LLMOracle) (prompt : String) :
    (∀ r, run_workflow o prompt = .ok r →
       agent_a_planner o prompt = .ok r.agent_outputs.A ∧
       agent_b_scenes_and_visuals o r.agent_outputs.A = .ok r.agent_outputs.B ∧
       agent_c_final_prompt o r.agent_outputs.B prompt = .ok r.agent_outputs.C ∧
       call_openai_agent o agent_d_brief_text r.agent_outputs.C = .ok r.agent_outputs.D ∧
       r.final = r.agent_outputs.D) ∧
    (∀ e, agent_a_planner o prompt = .error e → run_workflow o prompt = .error e) ∧
    (∀ a e, agent_a_planner o prompt = .ok a →
       agent_b_scenes_and_visuals o a = .error e → run_workflow o prompt = .error e) ∧
    (∀ a b e, agent_a_planner o prompt = .ok a →
       agent_b_scenes_and_visuals o a = .ok b →
       agent_c_final_prompt o b prompt = .error e → run_workflow o prompt = .error e) ∧
    (∀ a b c e, agent_a_planner o prompt = .ok a →
       agent_b_scenes_and_visuals o a = .ok b →
       agent_c_final_prompt o b prompt = .ok c →
       call_openai_agent o agent_d_brief_text c = .error e →
       run_workflow o prompt = .error e) := by
  refine ⟨?_, ?_, ?_, ?_, ?_⟩
  · intro r h
    unfold run_workflow at h
    cases hA : agent_a_planner o prompt with
    | error e => simp only [hA] at h; exact Except.noConfusion h
    | ok a =>
      simp only [hA] at h
      cases hB : agent_b_scenes_and_visuals o a with
      | error e => simp only [hB] at h; exact Except.noConfusion h
      | ok b =>
        simp only [hB] at h
        cases hC : agent_c_final_prompt o b prompt with
        | error e => simp only [hC] at h; exact Except.noConfusion h
        | ok c =>
          simp only [hC] at h
          cases hD : call_openai_agent o agent_d_brief_text c with
          | error e => simp only [hD] at h; exact Except.noConfusion h
          | ok d =>
            simp only [hD] at h
            cases h
            exact ⟨rfl, hB, hC, hD, rfl⟩
  · intro e hA
    simp only [run_workflow, hA]
  · intro a e hA hB
    simp only [run_workflow, hA, hB]
  · intro a b e hA hB hC
    simp only [run_workflow, hA, hB, hC]
  · intro a b c e hA hB hC hD
    simp only [run_workflow, hA, hB, hC, hD]

theorem run_workflow_batch_contract_witness :
    agent_a_planner echoOracle "t" = .ok "t" ∧
    agent_b_scenes_and_visuals echoOracle "t" = .ok "t" ∧
    agent_c_final_prompt echoOracle "t" "t" = .ok "User topic: t\n\nScene plan:\nt" ∧
    call_openai_agent echoOracle agent_d_brief_text "User topic: t\n\nScene plan:\nt" =
      .ok "User topic: t\n\nScene plan:\nt" ∧
    ("User topic: t\n\nScene plan:\nt" : String) = "User topic: t\n\nScene plan:\nt" :=
  (run_workflow_batch_contract echoOracle "t").1
    ⟨⟨"t", "t", "User topic: t\n\nScene plan:\nt", "User topic: t\n\nScene plan:\nt"⟩,
      "User topic: t\n\nScene plan:\nt"⟩ rfl

/-- C7 (code evaluation at the failing input): when the render provider
raises, the emitted Stage-D event carries `video_status = error` but its
`filename` field is the JSON null of the error outcome's explicit
`None`, not a string — the `N/A` default of `.get` never applies because
the key is always present. -/
theorem d_event_filename_null_on_error :
    ((event_stream echoOracle failRender 0 "storm").get? 3).map
        (fun ev => (ev.agent, ev.video_status, ev.filename)) =
      some ("D", some "error", none) := by
  rfl

/-- C8: `sanitize_filename` is idempotent; for a fixed topic and timestamp
the generated path is the fixed deterministic normal form; and a topic all
of whose characters are outside the allowed classes yields the placeholder
slug `video`. -/
theorem sanitize_idem_deterministic_fallback (s : String) (ts : Nat) :
    sanitize_filename (sanitize_filename s) = sanitize_filename s ∧
    get_video_filename s ts =
      "videos/" ++ (if sanitize_filename s = "" then "video" else sanitize_filename s) ++
        "_" ++ toString ts ++ ".mp4" ∧
    ((∀ c ∈ s.data, isKept c = false) →
      get_video_filename s ts = "videos/video_" ++ toString ts ++ ".mp4") := by
  refine ⟨sanitize_fixed _ (sanitize_data_word s) (sanitize_length_le s), rfl, ?_⟩
  intro h
  have hfil : s.data.filter isKept = [] :=
    List.filter_eq_nil_iff.mpr (fun c hc => by simp [h c hc])
  have hs : sanitize_filename s = "" := by
    unfold sanitize_filename
    rw [hfil]
    rfl
  simp only [get_video_filename, hs]
  rfl

theorem sanitize_idem_deterministic_fallback_witness :
    sanitize_filename (sanitize_filename "???") = sanitize_filename "???" ∧
    get_video_filename "???" 7 = "videos/video_7.mp4" :=
  ⟨(sanitize_idem_deterministic_fallback "???" 7).1,
   (sanitize_idem_deterministic_fallback "???" 7).2.2 (by decide)⟩

/-- C9: every character of a sanitized slug is a word character — in
particular never a path separator, dot, hyphen or whitespace — and the slug
is at most 50 characters long, so the slug cannot escape the `videos/`
directory or inject path components. -/
theorem sanitize_slug_safe (s : String) :
    (∀ c ∈ (sanitize_filename s).data,
       isWordChar c = true ∧ c ≠ '/' ∧ c ≠ '\\' ∧ c ≠ '.' ∧ c ≠ '-' ∧
         isPySpace c = false) ∧
    (sanitize_filename s).length ≤ 50 := by
  refine ⟨?_, sanitize_length_le s⟩
  intro c hc
  have hw := sanitize_data_word s c hc
  refine ⟨hw, ?_, ?_, ?_, ?_, word_not_space hw⟩
  · rintro rfl; exact absurd hw (by decide)
  · rintro rfl; exact absurd hw (by decide)
  · rintro rfl; exact absurd hw (by decide)
  · rintro rfl; exact absurd hw (by decide)

theorem sanitize_slug_safe_witness :
    (isWordChar 'a' = true ∧ 'a' ≠ '/' ∧ 'a' ≠ '\\' ∧ 'a' ≠ '.' ∧ 'a' ≠ '-' ∧
       isPySpace 'a' = false) ∧
    (sanitize_filename "a b/c.txt").length ≤ 50 :=
  ⟨(sanitize_slug_safe "a b/c.txt").1 'a' (by decide),
   (sanitize_slug_safe "a b/c.txt").2⟩

/-- C10: any `DONE` sentinel emitted by the stream carries the fixed
content `Complete! Video saved.`, whatever the Stage-D outcome was. -/
theorem done_sentinel_fixed_content
    (o : LLMOracle) (ro : RenderOracle) (ts : Nat) (prompt : String) :
    ∀ ev ∈ event_stream o ro ts prompt, ev.agent = "DONE" →
      ev.content = "Complete! Video saved." := by
  intro ev hev hagent
  unfold event_stream at hev
  cases hA : agent_a_planner o prompt with
  | error e =>
    simp only [hA, List.mem_singleton] at hev
    subst hev
    simp at hagent
  | ok a_out =>
    simp only [hA, List.mem_cons] at hev
    rcases hev with rfl | hev
    · simp at hagent
    · cases hB : agent_b_scenes_and_visuals o a_out with
      | error e =>
        simp only [hB, List.mem_singleton] at hev
        subst hev
        simp at hagent
      | ok b_out =>
        simp only [hB, List.mem_cons] at hev
        rcases hev with rfl | hev
        · simp at hagent
        · cases hC : agent_c_final_prompt o b_out prompt with
          | error e =>
            simp only [hC, List.mem_singleton] at hev
            subst hev
            simp at hagent
          | ok c_out =>
            simp [hC] at hev
            rcases hev with rfl | rfl | rfl
            · simp at hagent
            · simp at hagent
            · rfl

theorem done_sentinel_fixed_content_witness :
    ({ agent := "DONE", content := "Complete! Video saved." } : Event) ∈
        event_stream echoOracle failRender 0 "t" ∧
    ({ agent := "DONE", content := "Complete! Video saved." } : Event).content =
      "Complete! Video saved." :=
  ⟨by decide,
   done_sentinel_fixed_content echoOracle failRender 0 "t"
     { agent := "DONE", content := "Complete! Video saved." } (by decide) rfl⟩

end App
